import Mathlib

/-!
Verification of the exp-X-Monitor experiment orchestrator.

The definitions below are a shallow embedding of the Python scripts
`scripts/cpu-utilization.py`, `scripts/experiment-throughput.py` and
`scripts/experiment-latency.py`, together with the file-selection logic of
the plotting consumers `graph/latency.py` and `graph/throughput.py`.

Stateful orchestration code is embedded as explicit step lists with an
exception-propagating sequential semantics; the trace-capture registry
(the module-level `TRACE_READERS` list) is embedded as explicit state
passing; artifact-path construction is embedded as string functions that
mirror the Python f-strings.
-/

namespace XMonitor

/-- Events of the orchestrator: each constructor corresponds to one call
made by a driver loop body in the experiment scripts. -/
inductive Ev where
  | logSlack
  | makeOutputDir
  | startDatabase
  | configureNetdata
  | attachXdp
  | detachXdp
  | startTraceCapture
  | stopTraceCapture
  | startClientMonitor
  | runClientMonitor
  | stopClientMonitor
  | startStats
  | stopStats
  | loadPhase
  | runPhase
  | stopDatabase
  | coolDown
  deriving DecidableEq, Repr

/-- One step of a straight-line script: the event it performs and whether
the underlying `subprocess` call is made with `check=True` (a failing
checked call raises `CalledProcessError`; a failing unchecked call is
ignored and execution continues). -/
structure Step where
  ev : Ev
  checked : Bool
  deriving DecidableEq, Repr

/-- Execute a straight-line list of steps under a failure assignment.
`fails e = true` means every subprocess behind event `e` exits nonzero.
A failing checked step is invoked, raises, and stops execution (the
exception propagates); a failing unchecked step is invoked and execution
continues, exactly as in the Python scripts, which have no try/finally
around any cell body.  Returns the list of invoked events and whether an
exception propagated out of the sequence. -/
def execSteps (steps : List Step) (fails : Ev → Bool) : List Ev × Bool :=
  match steps with
  | [] => ([], false)
  | s :: rest =>
    if fails s.ev && s.checked then ([s.ev], true)
    else
      let r := execSteps rest fails
      (s.ev :: r.1, r.2)

/-- Number of times event `e` was invoked in an execution result. -/
def invokedCount (r : List Ev × Bool) (e : Ev) : Nat := r.1.count e

/-- The failure assignment with no failing subprocess. -/
def noFail : Ev → Bool := fun _ => false

/-- A failure assignment in which exactly the subprocesses behind event
`e` fail. -/
def failAt (e : Ev) : Ev → Bool := fun x => x == e

/-! Cell bodies, transcribed from the drivers.

`cpu-utilization.py`, `x_monitor_monitoring`, innermost loop body with the
script's committed configuration (`ismemcached = False`,
`enable_mutilate = False`): `log_to_slack` (contains its own handler,
never raises), `run_x_monitor_server` = `run_database` (Popen, unchecked)
then `load_xdp` (attach script, `check=True`), `calculate_x_monitor_cpu`
(clears the buffer and starts the background trace reader),
`run_x_monitor_client` = `run_x_monitor_client_monitor` (a blocking
`subprocess.run` with `check=True`), then `stop_for_x_monitor` =
`stop_bpf_tracepipe`; `stop_database`; `detach_xdp` (`check=True`),
then `time.sleep(5)`. -/
def cpuUtilXMonitorCell : List Step :=
  [ ⟨.logSlack, false⟩
  , ⟨.startDatabase, false⟩
  , ⟨.attachXdp, true⟩
  , ⟨.startTraceCapture, false⟩
  , ⟨.runClientMonitor, true⟩
  , ⟨.stopTraceCapture, false⟩
  , ⟨.stopDatabase, false⟩
  , ⟨.detachXdp, true⟩
  , ⟨.coolDown, false⟩ ]

/-- The `netdata_monitoring` innermost loop body of `cpu-utilization.py`
for a given metric (`isUser = true` means `metric == "user"`, which adds
the statistics sampler): `run_netdata_server` (`run_database`,
`run_netdata`), `time.sleep(5)`, `run_INFO` when user,
`run_netdata_client` = `run_netdata_client_monitor` (a non-blocking
`Popen`), `calculate_stats_cpu` / `calculate_netdata_cpu` (blocking
measurements, `check=True`), then `stop_for_netdata` = stop client, stop
stats, `stop_database`, then `time.sleep(5)`.  The blocking measurement
runs are folded into `runClientMonitor`. -/
def cpuUtilNetdataCell (isUser : Bool) : List Step :=
  [ ⟨.logSlack, false⟩
  , ⟨.startDatabase, false⟩
  , ⟨.configureNetdata, false⟩ ]
  ++ (if isUser then [⟨.startStats, false⟩] else [])
  ++ [ ⟨.startClientMonitor, false⟩
     , ⟨.runClientMonitor, true⟩
     , ⟨.stopClientMonitor, false⟩
     , ⟨.stopStats, false⟩
     , ⟨.stopDatabase, false⟩
     , ⟨.coolDown, false⟩ ]

/-- The `x_monitor_monitoring` innermost loop body of
`experiment-throughput.py`: `run_x_monitor_server` =
`run_database_for_x_monitor` (Popen, unchecked); `run_x_monitor_client` =
`load_xdp` (`check=True`), `run_mutilate_for_x_monitor` (blocking remote
load phase, then `run_x_monitor_client_monitor` as a non-blocking Popen,
then the blocking remote run phase redirected to the artifact file, all
unchecked), `detach_xdp` (`check=True`); then `stop_server_for_x_monitor`
= `stop_monitoring_client_for_x_monitor`; `stop_database`; then
`time.sleep(5)`. -/
def throughputXMonitorCell : List Step :=
  [ ⟨.logSlack, false⟩
  , ⟨.startDatabase, false⟩
  , ⟨.attachXdp, true⟩
  , ⟨.loadPhase, false⟩
  , ⟨.startClientMonitor, false⟩
  , ⟨.runPhase, false⟩
  , ⟨.detachXdp, true⟩
  , ⟨.stopClientMonitor, false⟩
  , ⟨.stopDatabase, false⟩
  , ⟨.coolDown, false⟩ ]

/-- The `netdata_monitoring` innermost loop body of
`experiment-throughput.py` for a given metric (the statistics sampler is
started when `all_runs_in_0_4cores` — true in the committed configuration
— and the metric is user). -/
def throughputNetdataCell (isUser : Bool) : List Step :=
  [ ⟨.logSlack, false⟩
  , ⟨.startDatabase, false⟩
  , ⟨.configureNetdata, false⟩ ]
  ++ (if isUser then [⟨.startStats, false⟩] else [])
  ++ [ ⟨.loadPhase, false⟩
     , ⟨.startClientMonitor, false⟩
     , ⟨.runPhase, false⟩
     , ⟨.stopClientMonitor, false⟩
     , ⟨.stopStats, false⟩
     , ⟨.stopDatabase, false⟩
     , ⟨.coolDown, false⟩ ]

/-- The `no_monitoring` loop body of `experiment-throughput.py`:
database, load generator, stop. -/
def throughputNoMonitoringCell : List Step :=
  [ ⟨.logSlack, false⟩
  , ⟨.startDatabase, false⟩
  , ⟨.loadPhase, false⟩
  , ⟨.runPhase, false⟩
  , ⟨.stopDatabase, false⟩
  , ⟨.coolDown, false⟩ ]

/-- The `x_monitor_monitoring` innermost loop body of
`experiment-latency.py` (`ismemcached = True`): `run_x_monitor_server` =
`run_database`; `run_x_monitor_client` = `load_xdp` (`check=True`),
`run_mutilate` (blocking load then non-blocking run phase),
`run_x_monitor_client_monitor` (blocking, unchecked), `detach_xdp`
(`check=True`); `stop_server` = `stop_mutilate`, `stop_stats`,
`stop_database`; `time.sleep(5)`. -/
def latencyXMonitorCell : List Step :=
  [ ⟨.logSlack, false⟩
  , ⟨.startDatabase, false⟩
  , ⟨.attachXdp, true⟩
  , ⟨.loadPhase, false⟩
  , ⟨.runPhase, false⟩
  , ⟨.runClientMonitor, false⟩
  , ⟨.detachXdp, true⟩
  , ⟨.stopClientMonitor, false⟩
  , ⟨.stopStats, false⟩
  , ⟨.stopDatabase, false⟩
  , ⟨.coolDown, false⟩ ]

/-- Execute a whole matrix (a list of cells, flattened in driver order)
under a per-cell failure assignment.  There is no handler anywhere in the
drivers' loops, so an exception raised inside one cell propagates and no
later cell runs: execution of the remaining cells happens only when the
current cell did not raise. -/
def execCells (cells : List (List Step)) (fails : Nat → Ev → Bool) :
    List Ev × Bool :=
  go cells 0
where
  go : List (List Step) → Nat → List Ev × Bool
  | [], _ => ([], false)
  | c :: rest, i =>
    let r := execSteps c (fails i)
    if r.2 then (r.1, true)
    else
      let r2 := go rest (i + 1)
      (r.1 ++ r2.1, r2.2)

/-- Capture-start calls: starting the background trace reader, starting
or running the monitoring client, and starting the statistics
sampler. -/
def isCaptureStart : Ev → Bool
  | Ev.startTraceCapture => true
  | Ev.startClientMonitor => true
  | Ev.runClientMonitor => true
  | Ev.startStats => true
  | _ => false

/-- Capture-stop calls. -/
def isCaptureStop : Ev → Bool
  | Ev.stopTraceCapture => true
  | Ev.stopClientMonitor => true
  | Ev.stopStats => true
  | _ => false

/-- Lifecycle ordering check on a recorded call sequence of one cell:
every database start precedes every capture-start call, and every
capture-stop call precedes every database stop. -/
def lifecycleOrderedB (t : List Ev) : Bool :=
  t.enum.all fun p =>
    t.enum.all fun q =>
      ((!(p.2 == Ev.startDatabase && isCaptureStart q.2)) || decide (p.1 < q.1))
      && ((!(isCaptureStop p.2 && q.2 == Ev.stopDatabase)) || decide (p.1 < q.1))

/-- Number of readers registered in `TRACE_READERS` after each prefix of
a recorded call sequence, starting from an empty registry: a trace
capture start appends one reader, `stop_bpf_tracepipe` clears the
registry. -/
def registryTrajectory (t : List Ev) : List Nat :=
  t.scanl
    (fun n e =>
      match e with
      | Ev.startTraceCapture => n + 1
      | Ev.stopTraceCapture => 0
      | _ => n)
    0

/-- The cell sequence executed by `x_monitor_monitoring` in
`cpu-utilization.py` under the committed configuration: metrics
`["user", "kernel"]`, one instance count, one interval — two cells, each
with the same body. -/
def cpuUtilXMonitorDriver : List (List Step) :=
  [cpuUtilXMonitorCell, cpuUtilXMonitorCell]

/-- The cell sequence executed by `x_monitor_monitoring` in
`experiment-latency.py`: metrics `["kernel", "user"]`, one instance
count, one interval — two cells. -/
def latencyXMonitorDriver : List (List Step) :=
  [latencyXMonitorCell, latencyXMonitorCell]

/-! Trace-capture registry (`TRACE_READERS` in `cpu-utilization.py`). -/

/-- A background trace reader process (`sudo cat trace_pipe` spawned by
`Popen`).  `joins` records whether `proc.wait(timeout=2)` completes
within the bounded timeout during stop. -/
structure Reader where
  joins : Bool
  deriving DecidableEq, Repr

/-- The destination file handle opened by `calculate_x_monitor_cpu`. -/
structure FileHandle where
  flushed : Bool
  closed : Bool
  deriving DecidableEq, Repr

/-- The module-level mutable registry `TRACE_READERS`: the list of
(process, file) pairs appended by `calculate_x_monitor_cpu`. -/
structure TraceState where
  readers : List (Reader × FileHandle)
  deriving DecidableEq, Repr

/-- State effect of `calculate_x_monitor_cpu` on the registry: it opens
the output file, spawns the background reader with `Popen` (which
returns immediately) and executes `TRACE_READERS.append((proc, f,
out_path))`.  There is no emptiness check, no lock and no raise: the
function always succeeds, whatever the current registry contents
(second component `none` = no exception raised). -/
def startTraceCaptureOp (s : TraceState) (r : Reader) :
    TraceState × Option Unit :=
  (⟨s.readers ++ [(r, ⟨false, false⟩)]⟩, none)

/-- Actions performed by `stop_bpf_tracepipe`, in program order. -/
inductive StopAct where
  | pkillSignal
  | wait
  | kill
  | flush
  | fsync
  | close
  deriving DecidableEq, Repr

/-- Environment outcome of the file operations attempted on one handle
during stop: whether `f.flush()`, `os.fsync(f.fileno())` and
`f.close()` raise when attempted.  Any raise is swallowed by the
surrounding `try/except Exception: pass`: a raising flush skips the
fsync (same try block) and leaves the handle unflushed; a raising close
is ignored and leaves the handle unclosed; the loop continues
regardless. -/
structure FileOpOutcome where
  flushRaises : Bool
  fsyncRaises : Bool
  closeRaises : Bool
  deriving DecidableEq, Repr

/-- The file-operation outcome in which no attempted operation
raises. -/
def fileOpsOk : FileOpOutcome := ⟨false, false, false⟩

/-- Actions attempted for one registered reader during stop, as a
function of whether its bounded join completes and of the file-operation
outcomes: `proc.wait(timeout=2)` (falling back to `proc.kill()` when it
does not complete), then `f.flush()`; then `os.fsync` — attempted only
when the flush did not raise, since both sit in the same try block —
then, in its own try block, `f.close()`, always attempted. -/
def stopOneActs (joins : Bool) (env : FileOpOutcome) : List StopAct :=
  (if joins then [StopAct.wait] else [StopAct.wait, StopAct.kill])
    ++ (if env.flushRaises then [StopAct.flush]
        else [StopAct.flush, StopAct.fsync])
    ++ [StopAct.close]

/-- Loop body of `stop_bpf_tracepipe` for one registered reader: the
attempted action sequence — every operation wrapped in a swallowing
handler, so the body never raises — and the final file-handle state:
flushed exactly when the flush did not raise, closed exactly when the
close did not raise. -/
def stopOneReader (rf : Reader × FileHandle) (env : FileOpOutcome) :
    List StopAct × FileHandle :=
  (stopOneActs rf.1.joins env, ⟨!env.flushRaises, !env.closeRaises⟩)

/-- `stop_bpf_tracepipe`: first `sudo pkill -f trace_pipe` (signals every
background reader to terminate; unchecked, never raises), then the
per-reader join/flush/close loop over `TRACE_READERS` — `env` gives each
registry position's file-operation outcome — then
`TRACE_READERS.clear()`.  Returns the new registry state, the full
attempted action list, and the final states of the file handles that
were registered on entry. -/
def stop_bpf_tracepipe (s : TraceState) (env : Nat → FileOpOutcome) :
    TraceState × List StopAct × List FileHandle :=
  (⟨[]⟩,
   StopAct.pkillSignal ::
     (s.readers.enum.map fun p => (stopOneReader p.2 (env p.1)).1).flatten,
   s.readers.enum.map fun p => (stopOneReader p.2 (env p.1)).2)

/-! Kernel trace ring buffer (`clear_trace_buffer` in
`cpu-utilization.py`). -/

/-- Actions on the kernel tracing filesystem performed by
`clear_trace_buffer` and `calculate_x_monitor_cpu`. -/
inductive TraceAct where
  | disableTracing
  | truncateTrace
  | enableTracing
  | openOutput
  | spawnReader
  | settleSleep
  deriving DecidableEq, Repr

/-- `clear_trace_buffer`: `echo 0 > tracing_on`, then `: > trace`, then
`echo 1 > tracing_on`, in that order. -/
def clear_trace_buffer : List TraceAct :=
  [TraceAct.disableTracing, TraceAct.truncateTrace, TraceAct.enableTracing]

/-- Action sequence of `calculate_x_monitor_cpu`: it calls
`clear_trace_buffer` first, and only then opens the output file, spawns
the `cat trace_pipe` reader redirected into it, and sleeps the settle
delay. -/
def calculate_x_monitor_cpu_acts : List TraceAct :=
  clear_trace_buffer ++ [TraceAct.openOutput, TraceAct.spawnReader, TraceAct.settleSleep]

/-- State of the kernel trace ring buffer: whether tracing is enabled and
the entries currently held. -/
structure RingBuffer where
  tracingOn : Bool
  lines : List String

/-- Effect of one tracing action on the ring buffer. -/
def applyTraceAct (b : RingBuffer) (a : TraceAct) : RingBuffer :=
  match a with
  | TraceAct.disableTracing => { b with tracingOn := false }
  | TraceAct.truncateTrace => { b with lines := [] }
  | TraceAct.enableTracing => { b with tracingOn := true }
  | _ => b

/-- Effect of a sequence of tracing actions. -/
def applyTraceActs (b : RingBuffer) (acts : List TraceAct) : RingBuffer :=
  acts.foldl applyTraceAct b

/-! Artifact paths (`experiment-throughput.py`). -/

/-- Python `str(n).zfill(3)`: left-pad the decimal rendering with zeros
to width three. -/
def zfill3 (n : Nat) : String :=
  let s := toString n
  if s.length < 3 then String.mk (List.replicate (3 - s.length) '0') ++ s else s

/-- The per-database unit suffix selected by the `ismemcached` knob. -/
def unitStr (ismemcached : Bool) : String :=
  if ismemcached then "mcd" else "redis"

/-- `make_output_dir` of `experiment-throughput.py`: the directory
created for a cell, `mkdir -p` of
`data_dir`/`cnt`/`str(num_instance).zfill(3)` plus unit. -/
def make_output_dir_path (dataDir : String) (cnt n : Nat)
    (ismemcached : Bool) : String :=
  dataDir ++ "/" ++ toString cnt ++ "/" ++ zfill3 n ++ unitStr ismemcached

/-- Artifact path from the f-strings of `run_mutilate_for_x_monitor` and
`run_mutilate_for_netdata` in `experiment-throughput.py`: the target of
the remote redirection `run.sh > ...`.  `tool` is the literal "xmonitor"
or "netdata"; `metric` iterates over "user" and "kernel"; `intervalStr`
is the f-string rendering of the interval value. -/
def mutilateArtifactPath (dataDir : String) (cnt : Nat)
    (tool metric : String) (n : Nat) (ismemcached : Bool)
    (intervalStr : String) : String :=
  dataDir ++ "/" ++ toString cnt ++ "/" ++ zfill3 n ++ unitStr ismemcached ++
    "/" ++ tool ++ "-" ++ metric ++ "metrics-" ++ toString n ++
    unitStr ismemcached ++ "-interval" ++ intervalStr ++ ".txt"

/-- Baseline artifact path from the f-string of
`run_mutilate_for_no_monitoring`. -/
def noMonitoringArtifactPath (dataDir : String) (cnt n : Nat)
    (ismemcached : Bool) : String :=
  dataDir ++ "/" ++ toString cnt ++ "/" ++ zfill3 n ++ unitStr ismemcached ++
    "/" ++ "no_monitoring-" ++ toString n ++ unitStr ismemcached ++ ".txt"

/-- The artifact naming grammar as the spec states it, for interval
bearing tools: directory grammar `dataDir`/`repeatIndex`/`N`
zero-padded to three digits plus unit, then filename
`tool`-`metricClass`metrics-`N``unit`-interval`interval`.`ext` with the
instance count unpadded in the filename component. -/
def specArtifactPath (dataDir : String) (repeatIndex : Nat)
    (tool metricClass : String) (n : Nat) (unit : String)
    (intervalStr ext : String) : String :=
  dataDir ++ "/" ++ toString repeatIndex ++ "/" ++ zfill3 n ++ unit ++ "/" ++
    tool ++ "-" ++ metricClass ++ "metrics-" ++ toString n ++ unit ++
    "-interval" ++ intervalStr ++ "." ++ ext

/-- The spec grammar for the no-instrumentation baseline:
no_monitoring-`N``unit`.txt inside the same directory grammar. -/
def specBaselinePath (dataDir : String) (repeatIndex n : Nat)
    (unit : String) : String :=
  dataDir ++ "/" ++ toString repeatIndex ++ "/" ++ zfill3 n ++ unit ++ "/" ++
    "no_monitoring-" ++ toString n ++ unit ++ ".txt"

/-! Interval suffixes: rendering by the drivers, parsing by the plotting
consumers (`graph/throughput.py` and `graph/latency.py`). -/

/-- Parse a nonempty list of decimal digits as a natural number (none on
an empty list or a non-digit character). -/
def parseNatDigits (cs : List Char) : Option Nat :=
  match cs with
  | [] => none
  | _ =>
    if cs.all Char.isDigit then
      some (cs.foldl (fun acc c => acc * 10 + (c.toNat - 48)) 0)
    else none

/-- Decompose a decimal suffix the way `float(...)` reads it: either a
plain digit string, giving integer part with no fraction, or
digits `.` digits, giving (integer part, fraction digits as a number,
number of fraction digits).  Anything else (several dots, stray
characters) makes `float` raise, modelled as `none`. -/
def parseDecimalParts (cs : List Char) : Option (Nat × Nat × Nat) :=
  match cs.splitOn '.' with
  | [a] => (parseNatDigits a).map fun i => (i, 0, 0)
  | [a, b] =>
    match parseNatDigits a, parseNatDigits b with
    | some i, some f => some (i, f, b.length)
    | _, _ => none
  | _ => none

/-- Exact rational value of a decomposed decimal suffix.  (For the short
decimal suffixes the drivers produce, IEEE double conversion is
correctly rounded, so the double `float` returns is within 2⁻⁵²
relative of this exact value — far inside the 1e-9 tolerance the
consumers compare with.) -/
def decimalValue : Nat × Nat × Nat → ℚ
  | (i, f, k) => (i : ℚ) + (f : ℚ) / (10 : ℚ) ^ k

/-- The value `float(m.group(1))` assigns to a captured interval
suffix. -/
def parseIntervalValue (cs : List Char) : Option ℚ :=
  (parseDecimalParts cs).map decimalValue

/-- Boolean prefix test on character lists. -/
def isPrefixList : List Char → List Char → Bool
  | [], _ => true
  | _ :: _, [] => false
  | p :: ps, c :: cs => p == c && isPrefixList ps cs

/-- The characters after the last occurrence of `pat` in `s` (none when
`pat` does not occur). -/
def afterLast (pat : List Char) : List Char → Option (List Char)
  | [] => none
  | c :: rest =>
    match afterLast pat rest with
    | some r => some r
    | none =>
      if isPrefixList pat (c :: rest) then
        some ((c :: rest).drop pat.length)
      else none

/-- Boolean suffix test on character lists. -/
def endsWithList (s pat : List Char) : Bool :=
  isPrefixList pat.reverse s.reverse

/-- Capture of the consumer regex (`interval([0-9.]+)` followed by a
literal dot, the extension and end of string) as used by
`_find_interval_files_txt` (`graph/throughput.py`) and
`find_interval_files` (`graph/latency.py`): for a name ending in the
extension, the nonempty run of digits and dots that follows the last
occurrence of `interval` and extends exactly to the extension.  On
every name for which this returns a capture, `re.search` returns the
same capture: the greedy `[0-9.]+` forces the successful match to be
the occurrence of `interval` after which only digits and dots remain
before the extension. -/
def extractIntervalSuffix (name : List Char) (ext : List Char) :
    Option (List Char) :=
  if endsWithList name ('.' :: ext) then
    let base := name.take (name.length - (ext.length + 1))
    match afterLast ("interval".data) base with
    | some cand =>
      if (!cand.isEmpty) && cand.all (fun c => c.isDigit || c == '.') then
        some cand
      else none
    | none => none
  else none

/-- The interval values configured in `experiment-throughput.py`
(`intervals = [1, 0.5, 0.001]`), each paired with the rendering the
driver's f-string produces for it (`str(1) = "1"`, `str(0.5) = "0.5"`,
`str(0.001) = "0.001"`; Python renders each float as its shortest
round-tripping decimal, with no trailing normalization). -/
def driverIntervals : List (ℚ × String) :=
  [(1, "1"), (1 / 2, "0.5"), (1 / 1000, "0.001")]

/-- The match predicate of `_select_file_for_interval`
(`graph/throughput.py`): a candidate file's parsed interval matches the
target when their absolute difference is below 1e-9. -/
def intervalMatches (sec target : ℚ) : Bool :=
  |sec - target| < 1 / 1000000000

/-- `_select_file_for_interval`: scan the candidate (interval, path)
pairs and return the first whose parsed interval matches the target
within 1e-9, or none. -/
def selectFileForInterval (candidates : List (ℚ × String))
    (target : ℚ) : Option String :=
  match candidates with
  | [] => none
  | (sec, path) :: rest =>
    if intervalMatches sec target then some path
    else selectFileForInterval rest target

/-- One produced artifact path per driver interval, at a representative
cell (repeat 0, five memcached instances, the experimental tool, user
metrics): the file set the consumer's glob finds in that cell
directory. -/
def producedPath (rendered : String) : String :=
  mutilateArtifactPath "data" 0 "xmonitor" "user" 5 true rendered

/-- The consumer-side candidate list for the representative cell: each
produced file name run through the regex capture and `float`, exactly
as `_find_interval_files_txt` builds its (interval, path) pairs. -/
def consumerCandidates : List (ℚ × String) :=
  driverIntervals.filterMap fun p =>
    match extractIntervalSuffix (producedPath p.2).data ("txt".data) with
    | some suf => (parseIntervalValue suf).map fun q => (q, producedPath p.2)
    | none => none

/-! Progress notification (`log_to_slack`, identical in all three
driver scripts). -/

/-- Exceptions the notification invocation
`subprocess.run([log.sh, message], check=True)` can raise: a
`CalledProcessError` on nonzero exit, or an `OSError` (for example
`FileNotFoundError`) if the script cannot be spawned.  Both are
subclasses of `Exception`, the class the handler catches. -/
inductive SubprocessError where
  | calledProcessError (exitCode : Nat)
  | osError (errno : Nat)
  deriving DecidableEq, Repr

/-- Observable outcome of one `log_to_slack` call: whether the warning
line was printed to stderr, and the exception (if any) that propagated
to the caller. -/
structure LogResult where
  warned : Bool
  propagated : Option SubprocessError
  deriving DecidableEq, Repr

/-- `log_to_slack`: invoke the external notification script; on any
exception print `[WARN] Failed to send message to slack` to stderr and
return normally.  `outcome` is the result of the underlying subprocess
invocation. -/
def log_to_slack (outcome : Except SubprocessError Unit) : LogResult :=
  match outcome with
  | Except.ok _ => { warned := false, propagated := none }
  | Except.error _ => { warned := true, propagated := none }

/-! Theorems. -/

/-- C1 counterexample: in the `x_monitor_monitoring` cell of
`cpu-utilization.py`, when the blocking load/client step
(`run_x_monitor_client`, `check=True`) raises, the exception propagates
and the teardown operations (`stop_bpf_tracepipe`, `stop_database`,
`detach_xdp`) are not invoked at all — refuting the claim that each is
still invoked exactly once. -/
theorem c1_counterexample :
    (execSteps cpuUtilXMonitorCell (failAt Ev.runClientMonitor)).2 = true ∧
    ¬ (invokedCount (execSteps cpuUtilXMonitorCell (failAt Ev.runClientMonitor))
          Ev.detachXdp = 1
        ∧ invokedCount (execSteps cpuUtilXMonitorCell (failAt Ev.runClientMonitor))
            Ev.stopTraceCapture = 1
        ∧ invokedCount (execSteps cpuUtilXMonitorCell (failAt Ev.runClientMonitor))
            Ev.stopDatabase = 1) := by
  decide

/-- C1 (amended): the per-cell teardown calls run exactly once each only
on the success path.  The cell bodies are straight-line sequences, not
try/finally cleanup blocks: when the blocking load/client step raises,
`stopTraceCapture`, `stopDatabase` and `detach` are skipped entirely and
the exception propagates out of the cell; likewise in
`experiment-throughput.py`, an exception before `detach_xdp` skips the
detach. -/
theorem c1_amended_cleanup_only_on_success :
    (execSteps cpuUtilXMonitorCell noFail).2 = false ∧
    invokedCount (execSteps cpuUtilXMonitorCell noFail) Ev.stopTraceCapture = 1 ∧
    invokedCount (execSteps cpuUtilXMonitorCell noFail) Ev.stopDatabase = 1 ∧
    invokedCount (execSteps cpuUtilXMonitorCell noFail) Ev.detachXdp = 1 ∧
    (execSteps cpuUtilXMonitorCell (failAt Ev.runClientMonitor)).2 = true ∧
    invokedCount (execSteps cpuUtilXMonitorCell (failAt Ev.runClientMonitor))
      Ev.stopTraceCapture = 0 ∧
    invokedCount (execSteps cpuUtilXMonitorCell (failAt Ev.runClientMonitor))
      Ev.stopDatabase = 0 ∧
    invokedCount (execSteps cpuUtilXMonitorCell (failAt Ev.runClientMonitor))
      Ev.detachXdp = 0 ∧
    (execSteps throughputXMonitorCell (failAt Ev.attachXdp)).2 = true ∧
    invokedCount (execSteps throughputXMonitorCell (failAt Ev.attachXdp))
      Ev.detachXdp = 0 := by
  decide

/-- C2 counterexample: with one capture already open, a second call to
`calculate_x_monitor_cpu` neither raises nor blocks: it silently
succeeds and the registry then holds two concurrent readers. -/
theorem c2_counterexample :
    (startTraceCaptureOp ((startTraceCaptureOp ⟨[]⟩ ⟨true⟩).1) ⟨true⟩).2 = none ∧
    ((startTraceCaptureOp ((startTraceCaptureOp ⟨[]⟩ ⟨true⟩).1) ⟨true⟩).1).readers.length
      = 2 := by
  decide

/-- C2 (amended): the capture-start operation always succeeds and
appends one more reader to `TRACE_READERS`, whatever the current
registry contents; the at-most-one-open-capture invariant holds only
along the driver's sequential call order, where `stop_bpf_tracepipe`
empties the registry before the next cell's start — along the recorded
run of `x_monitor_monitoring`, the registry never holds more than one
reader. -/
theorem c2_amended_second_start_appends :
    (∀ (s : TraceState) (r : Reader),
        (startTraceCaptureOp s r).2 = none ∧
        (startTraceCaptureOp s r).1.readers.length = s.readers.length + 1) ∧
    ((registryTrajectory
        (execCells cpuUtilXMonitorDriver (fun _ => noFail)).1).all
      (fun n => n ≤ 1)) = true := by
  refine ⟨fun s r => ⟨rfl, by simp [startTraceCaptureOp]⟩, by decide⟩

/-- C3 counterexample: one open capture whose `f.flush()` raises during
stop.  The handler swallows the failure: `stop_bpf_tracepipe` still
returns with the registry cleared, but the registered file handle is
not flushed at return — refuting the claim that at return every
registered file handle has been flushed and closed. -/
theorem c3_counterexample :
    (stop_bpf_tracepipe ⟨[(⟨true⟩, ⟨false, false⟩)]⟩
        (fun _ => ⟨true, false, false⟩)).1.readers = [] ∧
    ¬ (((stop_bpf_tracepipe ⟨[(⟨true⟩, ⟨false, false⟩)]⟩
          (fun _ => ⟨true, false, false⟩)).2.2.all
        fun f => f.flushed && f.closed) = true) := by
  decide

/-- C3 (amended): `stop_bpf_tracepipe` always returns with the registry
empty, after signalling first (the leading `pkill`), and, per reader:
the bounded join is attempted first, the forced kill happens exactly
when the join does not complete, the flush is attempted before the
close, the fsync is attempted exactly when the flush did not raise (and
then falls between flush and close), and the close attempt comes last.
File-operation failures are swallowed: the handle ends flushed exactly
when the flush did not raise and closed exactly when the close did not
raise, so only when no file operation raises is every registered handle
flushed and closed at return. -/
theorem c3_amended_stop_trace_capture (s : TraceState)
    (env : Nat → FileOpOutcome) (rf : Reader × FileHandle)
    (e : FileOpOutcome) :
    (stop_bpf_tracepipe s env).1.readers = [] ∧
    (stop_bpf_tracepipe s env).2.1.head? = some StopAct.pkillSignal ∧
    ((stop_bpf_tracepipe s (fun _ => fileOpsOk)).2.2.all
        fun f => f.flushed && f.closed) = true ∧
    (stopOneActs rf.1.joins e).head? = some StopAct.wait ∧
    ((stopOneActs rf.1.joins e).contains StopAct.kill) = !rf.1.joins ∧
    ((stopOneActs rf.1.joins e).contains StopAct.fsync) = !e.flushRaises ∧
    (stopOneActs rf.1.joins e).indexOf StopAct.wait
      < (stopOneActs rf.1.joins e).indexOf StopAct.flush ∧
    (stopOneActs rf.1.joins e).indexOf StopAct.flush
      < (stopOneActs rf.1.joins e).indexOf StopAct.close ∧
    (stopOneActs rf.1.joins ⟨false, e.fsyncRaises, e.closeRaises⟩).indexOf
        StopAct.flush
      < (stopOneActs rf.1.joins ⟨false, e.fsyncRaises, e.closeRaises⟩).indexOf
          StopAct.fsync ∧
    (stopOneActs rf.1.joins ⟨false, e.fsyncRaises, e.closeRaises⟩).indexOf
        StopAct.fsync
      < (stopOneActs rf.1.joins ⟨false, e.fsyncRaises, e.closeRaises⟩).indexOf
          StopAct.close ∧
    (stopOneActs rf.1.joins e).getLast? = some StopAct.close ∧
    (stopOneReader rf e).2.flushed = !e.flushRaises ∧
    (stopOneReader rf e).2.closed = !e.closeRaises := by
  have hall : ((stop_bpf_tracepipe s (fun _ => fileOpsOk)).2.2.all
      fun f => f.flushed && f.closed) = true := by
    simp [stop_bpf_tracepipe, stopOneReader, fileOpsOk]
  have hone : ∀ (j : Bool) (o : FileOpOutcome),
      (stopOneActs j o).head? = some StopAct.wait ∧
      ((stopOneActs j o).contains StopAct.kill) = !j ∧
      ((stopOneActs j o).contains StopAct.fsync) = !o.flushRaises ∧
      (stopOneActs j o).indexOf StopAct.wait
        < (stopOneActs j o).indexOf StopAct.flush ∧
      (stopOneActs j o).indexOf StopAct.flush
        < (stopOneActs j o).indexOf StopAct.close ∧
      (stopOneActs j o).getLast? = some StopAct.close := by
    intro j o
    obtain ⟨a, b, c⟩ := o
    cases j <;> cases a <;> cases b <;> cases c <;> decide
  have hfsync : ∀ (j : Bool) (b c : Bool),
      (stopOneActs j ⟨false, b, c⟩).indexOf StopAct.flush
        < (stopOneActs j ⟨false, b, c⟩).indexOf StopAct.fsync ∧
      (stopOneActs j ⟨false, b, c⟩).indexOf StopAct.fsync
        < (stopOneActs j ⟨false, b, c⟩).indexOf StopAct.close := by
    intro j b c
    cases j <;> cases b <;> cases c <;> decide
  obtain ⟨h1, h2, h3, h4, h5, h6⟩ := hone rf.1.joins e
  obtain ⟨h7, h8⟩ := hfsync rf.1.joins e.fsyncRaises e.closeRaises
  exact ⟨rfl, rfl, hall, h1, h2, h3, h4, h5, h7, h8, h6, rfl, rfl⟩

/-- C4: in the recorded call sequence of every cell body — both drivers'
x-monitor and netdata cells, the latency x-monitor cell and the
no-monitoring cell, for either metric class — the database start
precedes every capture-start call and every capture-stop call precedes
the database stop. -/
theorem c4_lifecycle_ordering (u v : Bool) :
    lifecycleOrderedB (execSteps cpuUtilXMonitorCell noFail).1 = true ∧
    lifecycleOrderedB (execSteps (cpuUtilNetdataCell u) noFail).1 = true ∧
    lifecycleOrderedB (execSteps throughputXMonitorCell noFail).1 = true ∧
    lifecycleOrderedB (execSteps (throughputNetdataCell v) noFail).1 = true ∧
    lifecycleOrderedB (execSteps latencyXMonitorCell noFail).1 = true ∧
    lifecycleOrderedB (execSteps throughputNoMonitoringCell noFail).1 = true := by
  cases u <;> cases v <;> decide

/-- C5 counterexample: in `experiment-latency.py`, when the attach step
of the first cell fails, the exception propagates out of the driver
loop: the second cell never starts (the database is started once, not
twice), and no teardown runs for the failing cell — refuting the claim
that a failed cell is abandoned, cleaned up, and the driver proceeds to
the next cell. -/
theorem c5_counterexample :
    (execCells latencyXMonitorDriver
        (fun i e => i == 0 && e == Ev.attachXdp)).2 = true ∧
    invokedCount (execCells latencyXMonitorDriver
        (fun i e => i == 0 && e == Ev.attachXdp)) Ev.startDatabase = 1 ∧
    invokedCount (execCells latencyXMonitorDriver
        (fun i e => i == 0 && e == Ev.attachXdp)) Ev.stopDatabase = 0 := by
  decide

/-- C5 (amended): an exception in a checked step (the attach/detach
scripts) aborts the whole matrix run — the failing cell's remaining
steps, its teardown included, are skipped, and no later cell runs.
Failures of unchecked remote commands raise nothing: the cell continues
and the run completes.  Only notification-sink failures are contained
(`log_to_slack` swallows every exception its subprocess raises). -/
theorem c5_amended_error_aborts_run :
    (execCells latencyXMonitorDriver
        (fun i e => i == 0 && e == Ev.attachXdp)).1
      = [Ev.logSlack, Ev.startDatabase, Ev.attachXdp] ∧
    (execCells latencyXMonitorDriver
        (fun i e => i == 0 && e == Ev.attachXdp)).2 = true ∧
    (execCells latencyXMonitorDriver (fun _ e => e == Ev.loadPhase)).2 = false ∧
    invokedCount (execCells latencyXMonitorDriver
        (fun _ e => e == Ev.loadPhase)) Ev.stopDatabase = 2 ∧
    (∀ e : SubprocessError,
        (log_to_slack (Except.error e)).propagated = none) := by
  exact ⟨by decide, by decide, by decide, by decide, fun _ => rfl⟩

/-- C6: starting a trace capture performs disable, truncate, re-enable,
exactly once each and in that order, before opening the output file and
spawning the redirected reader; applying the clearing sequence to any
ring-buffer state removes all retained entries and leaves tracing
enabled. -/
theorem c6_clear_trace_buffer_order (b : RingBuffer) :
    calculate_x_monitor_cpu_acts.count TraceAct.disableTracing = 1 ∧
    calculate_x_monitor_cpu_acts.count TraceAct.truncateTrace = 1 ∧
    calculate_x_monitor_cpu_acts.count TraceAct.enableTracing = 1 ∧
    calculate_x_monitor_cpu_acts.indexOf TraceAct.disableTracing
      < calculate_x_monitor_cpu_acts.indexOf TraceAct.truncateTrace ∧
    calculate_x_monitor_cpu_acts.indexOf TraceAct.truncateTrace
      < calculate_x_monitor_cpu_acts.indexOf TraceAct.enableTracing ∧
    calculate_x_monitor_cpu_acts.indexOf TraceAct.enableTracing
      < calculate_x_monitor_cpu_acts.indexOf TraceAct.openOutput ∧
    calculate_x_monitor_cpu_acts.indexOf TraceAct.openOutput
      < calculate_x_monitor_cpu_acts.indexOf TraceAct.spawnReader ∧
    applyTraceActs b clear_trace_buffer = ⟨true, []⟩ := by
  refine ⟨?_, ?_, ?_, ?_, ?_, ?_, ?_, rfl⟩ <;> decide

/-- C7: the artifact path each throughput cell writes equals the spec's
naming grammar — directory `dataDir`/`repeatIndex`/`N` zero-padded to
three digits plus unit, filename with the unpadded instance count — for
the interval-bearing tools and for the no-instrumentation baseline; the
directory component zero-pads (5 renders as 005, 12 as 012) while the
filename component uses the plain decimal rendering. -/
theorem c7_artifact_path_grammar (dataDir : String) (cnt : Nat)
    (tool metric : String) (n : Nat) (ismem : Bool) (intervalStr : String) :
    mutilateArtifactPath dataDir cnt tool metric n ismem intervalStr
      = specArtifactPath dataDir cnt tool metric n (unitStr ismem)
          intervalStr "txt" ∧
    noMonitoringArtifactPath dataDir cnt n ismem
      = specBaselinePath dataDir cnt n (unitStr ismem) ∧
    zfill3 5 = "005" ∧ toString (5 : Nat) = "5" ∧
    zfill3 12 = "012" ∧ toString (12 : Nat) = "12" := by
  have hdot : "." ++ "txt" = ".txt" := rfl
  refine ⟨?_, rfl, by decide, by decide, by decide, by decide⟩
  simp only [mutilateArtifactPath, specArtifactPath, String.append_assoc, hdot]

/-- C8: `stop_bpf_tracepipe` is idempotent: after one call the registry
is empty, and a second call leaves the registry state identical,
performs only the unchecked signal (no join — so it cannot block — and
no file operation), and has no raise path (every operation in its body
is unchecked or wrapped in a swallowing handler). -/
theorem c8_stop_idempotent (s : TraceState)
    (env env2 : Nat → FileOpOutcome) :
    (stop_bpf_tracepipe (stop_bpf_tracepipe s env).1 env2).1
      = (stop_bpf_tracepipe s env).1 ∧
    (stop_bpf_tracepipe (stop_bpf_tracepipe s env).1 env2).2.1
      = [StopAct.pkillSignal] ∧
    (stop_bpf_tracepipe (stop_bpf_tracepipe s env).1 env2).2.1.count
        StopAct.wait = 0 ∧
    (stop_bpf_tracepipe (stop_bpf_tracepipe s env).1 env2).2.2 = [] := by
  exact ⟨rfl, rfl, rfl, rfl⟩

/-- C10: `log_to_slack` catches every exception its notification
subprocess can raise and only prints a warning: nothing propagates to
the experiment driver, and a successful invocation propagates nothing
either. -/
theorem c10_log_to_slack_contains_failures (e : SubprocessError) :
    log_to_slack (Except.error e) = ⟨true, none⟩ ∧
    log_to_slack (Except.ok ()) = ⟨false, none⟩ :=
  ⟨rfl, rfl⟩

/-- C9: for every interval value the throughput driver uses, the
rendered artifact suffix is the plain decimal rendering, the consumer
regex recovers exactly that suffix from the produced path, `float`
parsing recovers the original interval within 1e-9 (here: exactly), and
the consumer's tolerance-based file selection returns exactly the file
the producer wrote for that interval. -/
theorem c9_interval_roundtrip :
    ∀ p ∈ driverIntervals,
      extractIntervalSuffix (producedPath p.2).data ("txt".data)
        = some p.2.data ∧
      (∃ q, parseIntervalValue p.2.data = some q ∧
        |q - p.1| < 1 / 1000000000) ∧
      selectFileForInterval consumerCandidates p.1 = some (producedPath p.2) := by
  have he1 : extractIntervalSuffix (producedPath "1").data ("txt".data)
      = some ("1".data) := by decide
  have he2 : extractIntervalSuffix (producedPath "0.5").data ("txt".data)
      = some ("0.5".data) := by decide
  have he3 : extractIntervalSuffix (producedPath "0.001").data ("txt".data)
      = some ("0.001".data) := by decide
  have hp1 : parseDecimalParts ("1".data) = some (1, 0, 0) := by decide
  have hp2 : parseDecimalParts ("0.5".data) = some (0, 5, 1) := by decide
  have hp3 : parseDecimalParts ("0.001".data) = some (0, 1, 3) := by decide
  have hc : consumerCandidates =
      [(decimalValue (1, 0, 0), producedPath "1"),
       (decimalValue (0, 5, 1), producedPath "0.5"),
       (decimalValue (0, 1, 3), producedPath "0.001")] := by
    simp [consumerCandidates, driverIntervals, he1, he2, he3,
      parseIntervalValue, hp1, hp2, hp3]
  have m11 : intervalMatches (decimalValue (1, 0, 0)) 1 = true := by
    norm_num [intervalMatches, decimalValue]
  have m21 : intervalMatches (decimalValue (1, 0, 0)) (1 / 2) = false := by
    norm_num [intervalMatches, decimalValue]
    rw [abs_of_pos] <;> norm_num
  have m22 : intervalMatches (decimalValue (0, 5, 1)) (1 / 2) = true := by
    norm_num [intervalMatches, decimalValue]
  have m31 : intervalMatches (decimalValue (1, 0, 0)) (1 / 1000) = false := by
    norm_num [intervalMatches, decimalValue]
    rw [abs_of_pos] <;> norm_num
  have m32 : intervalMatches (decimalValue (0, 5, 1)) (1 / 1000) = false := by
    norm_num [intervalMatches, decimalValue]
    rw [abs_of_pos] <;> norm_num
  have m33 : intervalMatches (decimalValue (0, 1, 3)) (1 / 1000) = true := by
    norm_num [intervalMatches, decimalValue]
  intro p hp
  simp only [driverIntervals, List.mem_cons, List.not_mem_nil, or_false] at hp
  rcases hp with rfl | rfl | rfl
  · refine ⟨he1, ⟨decimalValue (1, 0, 0), ?_, ?_⟩, ?_⟩
    · simp [parseIntervalValue, hp1]
    · norm_num [decimalValue]
    · rw [hc]
      simp only [selectFileForInterval, m11]
      simp
  · refine ⟨he2, ⟨decimalValue (0, 5, 1), ?_, ?_⟩, ?_⟩
    · simp [parseIntervalValue, hp2]
    · norm_num [decimalValue]
    · rw [hc]
      simp only [selectFileForInterval, m21, m22]
      simp
  · refine ⟨he3, ⟨decimalValue (0, 1, 3), ?_, ?_⟩, ?_⟩
    · simp [parseIntervalValue, hp3]
    · norm_num [decimalValue]
    · rw [hc]
      simp only [selectFileForInterval, m31, m32, m33]
      simp

/-- C9 witness: the round-trip at the spec's own example, interval
0.001. -/
theorem c9_interval_roundtrip_witness :
    extractIntervalSuffix (producedPath "0.001").data ("txt".data)
      = some ("0.001".data) ∧
    (∃ q, parseIntervalValue ("0.001".data) = some q ∧
      |q - (1 : ℚ) / 1000| < 1 / 1000000000) ∧
    selectFileForInterval consumerCandidates ((1 : ℚ) / 1000)
      = some (producedPath "0.001") :=
  c9_interval_roundtrip ((1 : ℚ) / 1000, "0.001") (by simp [driverIntervals])

end XMonitor
